import Mathlib

/-!
# Verification of the firefly elemental rotation-matrix generator

Shallow embedding of `firefly/math/rotation_matrix.py` as evidenced by the demo
notebook `src/demo/rotation_matrix.ipynb` (the only caller present in the
snapshot; the notebook records the helper's traceback and three full output
matrices), checked against the natural-language specification.

Angles and matrix entries are modelled as real numbers; the Python `int` versus
`float` distinction of the public contract is modelled by a sum type, and the
beartype guard of the private helper by an `Except` result.  The model is
noncomputable only because real-valued `cos`/`sin` are; all concrete
evaluations below are settled by proof, not by execution.
-/

namespace Firefly

open Real

/-- Python runtime numbers as the rotation API receives them: either an `int`
or a `float` (real-valued in this model).  The distinction is part of the
public contract (spec §3): integral angles are rejected. -/
inductive PyNum where
  | pint (n : ℤ)
  | pfloat (x : ℝ)

/-- Error taxonomy of the core.  The spec (§7) has exactly one kind,
ParameterTypeViolation; in the recorded traceback it surfaces as beartype's
parameter-violation exception on `__fundamentalRotation(theta: float)`. -/
inductive PyError where
  | ParameterTypeViolation
  deriving DecidableEq

/-- Axis selector: stands for the fixed unit vectors `np.array([1.0, 0, 0])`,
`[0, 1.0, 0]`, `[0, 0, 1.0]` that `rotx`/`roty`/`rotz` pass to the shared
private helper (spec §3: three fixed enumerants). -/
inductive Axis where
  | X
  | Y
  | Z

/-- Modelled from the spec: matrix-assembly core of the private helper
`__fundamentalRotation` of `firefly/math/rotation_matrix.py`, whose source file
is absent from the snapshot (only the demo notebook that calls it is present).
Assembly follows spec §4.1 step 3: identity row/column for the selected axis,
the two remaining axes mixed by `c` and `s`.  Per the spec's own instruction
that the sign placements must reproduce the literal reference outputs (§4.1
note, §8), `c` and `s` are taken as `cos θ` and `sin θ` of the argument
itself: the outputs recorded in the notebook at trace input
`np.rad2deg(45) ≈ 2578.31` equal cos/sin of `2578.31` radians (proved below in
the trace-reproduction theorems), so the helper applies no degree→radian
conversion — spec §4.1 step 1 is not present in the implementation. -/
noncomputable def rotMat (a : Axis) (θ : ℝ) : Matrix (Fin 3) (Fin 3) ℝ :=
  match a with
  | .X => !![1, 0, 0; 0, cos θ, sin θ; 0, -sin θ, cos θ]
  | .Y => !![cos θ, 0, -sin θ; 0, 1, 0; sin θ, 0, cos θ]
  | .Z => !![cos θ, sin θ, 0; -sin θ, cos θ, 0; 0, 0, 1]

/-- Modelled from the spec: the private helper `__fundamentalRotation(vect,
theta)` with its strict `theta: float` runtime guard (visible in the recorded
traceback): a non-float argument raises the parameter-type violation before
any trigonometric work; a float argument yields the assembled matrix. -/
noncomputable def fundamentalRotation (a : Axis) :
    PyNum → Except PyError (Matrix (Fin 3) (Fin 3) ℝ)
  | .pint _ => .error .ParameterTypeViolation
  | .pfloat x => .ok (rotMat a x)

/-- Public entry point `rotx(theta)`; the traceback in the notebook shows its
body is `return __fundamentalRotation(np.array([1.0, 0, 0]), theta)`, with no
handler around the call. -/
noncomputable def rotx (v : PyNum) : Except PyError (Matrix (Fin 3) (Fin 3) ℝ) :=
  fundamentalRotation .X v

/-- Public entry point `roty(theta)`: the Y-axis instance of the shared
private helper. -/
noncomputable def roty (v : PyNum) : Except PyError (Matrix (Fin 3) (Fin 3) ℝ) :=
  fundamentalRotation .Y v

/-- Public entry point `rotz(theta)`: the Z-axis instance of the shared
private helper. -/
noncomputable def rotz (v : PyNum) : Except PyError (Matrix (Fin 3) (Fin 3) ℝ) :=
  fundamentalRotation .Z v

/-- Real-arithmetic semantics of `np.rad2deg`: multiplication by `180/π`.
The demo feeds `np.rad2deg(45)` to the three entry points. -/
noncomputable def rad2deg (x : ℝ) : ℝ := x * (180 / π)

/-- Transcription of the spec's algorithm for `rotationX` exactly as worded
(§4.1): step 1 converts the input from degrees to radians, steps 2–3 assemble
the matrix from cos/sin of the converted angle with the stated sign pattern.
Kept separate from `rotMat` so the spec's algorithm can be compared with the
implementation's behaviour. -/
noncomputable def rotationXspec (θ : ℝ) : Matrix (Fin 3) (Fin 3) ℝ :=
  !![1, 0, 0;
     0, cos (θ * π / 180), sin (θ * π / 180);
     0, -sin (θ * π / 180), cos (θ * π / 180)]

/-- Golden matrix recorded in the demo notebook for `rotx` at the trace input
`np.rad2deg(45)` (spec §8 literal scenario). -/
noncomputable def goldenX : Matrix (Fin 3) (Fin 3) ℝ :=
  !![1, 0, 0; 0, -0.59181273, 0.80607549; 0, -0.80607549, -0.59181273]

/-- Golden matrix recorded in the demo notebook for `roty` at the trace
input. -/
noncomputable def goldenY : Matrix (Fin 3) (Fin 3) ℝ :=
  !![-0.59181273, 0, -0.80607549; 0, 1, 0; 0.80607549, 0, -0.59181273]

/-- Golden matrix recorded in the demo notebook for `rotz` at the trace
input. -/
noncomputable def goldenZ : Matrix (Fin 3) (Fin 3) ℝ :=
  !![-0.59181273, 0.80607549, 0; -0.80607549, -0.59181273, 0; 0, 0, 1]

/-- At angle zero every assembled matrix is the identity, exactly. -/
theorem rotMat_zero (a : Axis) : rotMat a 0 = 1 := by
  cases a <;>
    · ext i j
      fin_cases i <;> fin_cases j <;>
        simp [rotMat, Matrix.one_apply, Matrix.vecHead, Matrix.vecTail]

/-- Doubling step, sine lower bound: from nonnegative lower bounds on `sin a`
and `cos a` a lower bound on `sin (2a)` follows. -/
theorem sin_double_lo {a s1 c1 t : ℝ} (hs : s1 ≤ Real.sin a) (hc : c1 ≤ Real.cos a)
    (h0s : 0 ≤ s1) (h0c : 0 ≤ c1) (ht : t ≤ 2 * s1 * c1) : t ≤ Real.sin (2 * a) := by
  have h2 := Real.sin_two_mul a
  have hp : s1 * c1 ≤ Real.sin a * Real.cos a :=
    mul_le_mul hs hc h0c (le_trans h0s hs)
  linarith

/-- Doubling step, sine upper bound. -/
theorem sin_double_hi {a s2 c2 t : ℝ} (hs : Real.sin a ≤ s2) (hc : Real.cos a ≤ c2)
    (h0s : 0 ≤ Real.sin a) (h0c : 0 ≤ Real.cos a) (ht : 2 * s2 * c2 ≤ t) :
    Real.sin (2 * a) ≤ t := by
  have h2 := Real.sin_two_mul a
  have hp : Real.sin a * Real.cos a ≤ s2 * c2 :=
    mul_le_mul hs hc h0c (le_trans h0s hs)
  linarith

/-- Doubling step, cosine lower bound, via `cos 2a = 1 − 2 sin² a`. -/
theorem cos_double_lo {a s2 t : ℝ} (hs : Real.sin a ≤ s2) (h0s : 0 ≤ Real.sin a)
    (ht : t ≤ 1 - 2 * s2 ^ 2) : t ≤ Real.cos (2 * a) := by
  have h2 := Real.cos_two_mul' a
  have h3 := Real.sin_sq_add_cos_sq a
  have hp : Real.sin a ^ 2 ≤ s2 ^ 2 := pow_le_pow_left₀ h0s hs 2
  linarith

/-- Doubling step, cosine upper bound. -/
theorem cos_double_hi {a s1 t : ℝ} (hs : s1 ≤ Real.sin a) (h0s : 0 ≤ s1)
    (ht : 1 - 2 * s1 ^ 2 ≤ t) : Real.cos (2 * a) ≤ t := by
  have h2 := Real.cos_two_mul' a
  have h3 := Real.sin_sq_add_cos_sq a
  have hp : s1 ^ 2 ≤ Real.sin a ^ 2 := pow_le_pow_left₀ h0s hs 2
  linarith

/-- Interval enclosure of `sin` and `cos` at `y = 821π − 8100/π ≈ 0.9374905`,
the representative of the demo-trace angle `8100/π = np.rad2deg(45)` modulo
the trigonometric period.  Obtained from `π` to twenty decimals, a Taylor
enclosure at `y/128`, and a seven-stage double-angle ladder. -/
theorem sin_cos_y_bounds :
    ((0.8060754690858116 : ℝ) ≤ Real.sin (821 * π - 8100 / π) ∧
      Real.sin (821 * π - 8100 / π) ≤ 0.8060755129862244) ∧
    ((0.5918127079938294 : ℝ) ≤ Real.cos (821 * π - 8100 / π) ∧
      Real.cos (821 * π - 8100 / π) ≤ 0.5918127441675243) := by
  have hy1 : (0.937490508515809317 : ℝ) ≤ 821 * π - 8100 / π := by
    have hgt := Real.pi_gt_d20
    have hd : (8100 : ℝ) / π < 8100 / 3.14159265358979323846 :=
      (div_lt_div_iff_of_pos_left (by norm_num) Real.pi_pos (by norm_num)).mpr hgt
    have hc : (0.937490508515809317 : ℝ) ≤
        821 * 3.14159265358979323846 - 8100 / 3.14159265358979323846 := by norm_num
    linarith
  have hy2 : 821 * π - 8100 / π ≤ 0.937490508515809334 := by
    have hlt := Real.pi_lt_d20
    have hd : (8100 : ℝ) / 3.14159265358979323847 < 8100 / π :=
      (div_lt_div_iff_of_pos_left (by norm_num) (by norm_num) Real.pi_pos).mpr hlt
    have hc : 821 * (3.14159265358979323847 : ℝ) - 8100 / 3.14159265358979323847 ≤
        0.937490508515809334 := by norm_num
    linarith
  set y := 821 * π - 8100 / π with hydef
  have hb0 : (0 : ℝ) ≤ y / 128 := by linarith
  have hbl : (0.0073241445977797602 : ℝ) ≤ y / 128 := by linarith
  have hbu : y / 128 ≤ 0.0073241445977797605 := by linarith
  have habs : |y / 128| ≤ 1 := by rw [abs_of_nonneg hb0]; linarith
  have hsinb := Real.sin_bound habs
  have hcosb := Real.cos_bound habs
  rw [abs_of_nonneg hb0] at hsinb hcosb
  have hm2 : (y / 128) ^ 2 ≤ (0.0073241445977797605 : ℝ) ^ 2 := pow_le_pow_left₀ hb0 hbu 2
  have hm3 : (y / 128) ^ 3 ≤ (0.0073241445977797605 : ℝ) ^ 3 := pow_le_pow_left₀ hb0 hbu 3
  have hm4 : (y / 128) ^ 4 ≤ (0.0073241445977797605 : ℝ) ^ 4 := pow_le_pow_left₀ hb0 hbu 4
  have hl2 : (0.0073241445977797602 : ℝ) ^ 2 ≤ (y / 128) ^ 2 :=
    pow_le_pow_left₀ (by norm_num) hbl 2
  have hl3 : (0.0073241445977797602 : ℝ) ^ 3 ≤ (y / 128) ^ 3 :=
    pow_le_pow_left₀ (by norm_num) hbl 3
  have hs128l : (0.007324078966276 : ℝ) ≤ Real.sin (y / 128) := by
    have h1 := (abs_le.mp hsinb).1
    have hc : (0.007324078966276 : ℝ) ≤ 0.0073241445977797602 -
        (0.0073241445977797605 : ℝ) ^ 3 / 6 -
        (0.0073241445977797605 : ℝ) ^ 4 * (5 / 96) := by norm_num
    linarith
  have hs128u : Real.sin (y / 128) ≤ 0.0073240792660242 := by
    have h1 := (abs_le.mp hsinb).2
    have hc : (0.0073241445977797605 : ℝ) - (0.0073241445977797602 : ℝ) ^ 3 / 6 +
        (0.0073241445977797605 : ℝ) ^ 4 * (5 / 96) ≤ 0.0073240792660242 := by norm_num
    linarith
  have hc128l : (0.9999731783030813 : ℝ) ≤ Real.cos (y / 128) := by
    have h1 := (abs_le.mp hcosb).1
    have hc : (0.9999731783030813 : ℝ) ≤ 1 - (0.0073241445977797605 : ℝ) ^ 2 / 2 -
        (0.0073241445977797605 : ℝ) ^ 4 * (5 / 96) := by norm_num
    linarith
  have hc128u : Real.cos (y / 128) ≤ 0.9999731786028295 := by
    have h1 := (abs_le.mp hcosb).2
    have hc : 1 - (0.0073241445977797602 : ℝ) ^ 2 / 2 +
        (0.0073241445977797605 : ℝ) ^ 4 * (5 / 96) ≤ 0.9999731786028295 := by norm_num
    linarith
  have h0s128 : (0 : ℝ) ≤ Real.sin (y / 128) := le_trans (by norm_num) hs128l
  have h0c128 : (0 : ℝ) ≤ Real.cos (y / 128) := le_trans (by norm_num) hc128l
  have e64 : y / 64 = 2 * (y / 128) := by ring
  have hs64l : (0.0146477650440995 : ℝ) ≤ Real.sin (y / 64) := by
    rw [e64]; exact sin_double_lo hs128l hc128l (by norm_num) (by norm_num) (by norm_num)
  have hs64u : Real.sin (y / 64) ≤ 0.0146477656479706 := by
    rw [e64]; exact sin_double_hi hs128u hc128u h0s128 h0c128 (by norm_num)
  have hc64l : (0.9998927157258099 : ℝ) ≤ Real.cos (y / 64) := by
    rw [e64]; exact cos_double_lo hs128u h0s128 (by norm_num)
  have hc64u : Real.cos (y / 64) ≤ 0.9998927157345916 := by
    rw [e64]; exact cos_double_hi hs128l (by norm_num) (by norm_num)
  have h0s64 : (0 : ℝ) ≤ Real.sin (y / 64) := le_trans (by norm_num) hs64l
  have h0c64 : (0 : ℝ) ≤ Real.cos (y / 64) := le_trans (by norm_num) hc64l
  have e32 : y / 32 = 2 * (y / 64) := by ring
  have hs32l : (0.0292923871385164 : ℝ) ≤ Real.sin (y / 32) := by
    rw [e32]; exact sin_double_lo hs64l hc64l (by norm_num) (by norm_num) (by norm_num)
  have hs32u : Real.sin (y / 32) ≤ 0.0292923883463864 := by
    rw [e32]; exact sin_double_hi hs64u hc64u h0s64 h0c64 (by norm_num)
  have hc32l : (0.9995708859230442 : ℝ) ≤ Real.cos (y / 32) := by
    rw [e32]; exact cos_double_lo hs64u h0s64 (by norm_num)
  have hc32u : Real.cos (y / 32) ≤ 0.9995708859584258 := by
    rw [e32]; exact cos_double_hi hs64l (by norm_num) (by norm_num)
  have h0s32 : (0 : ℝ) ≤ Real.sin (y / 32) := le_trans (by norm_num) hs32l
  have h0c32 : (0 : ℝ) ≤ Real.cos (y / 32) := le_trans (by norm_num) hc32l
  have e16 : y / 16 = 2 * (y / 32) := by ring
  have hs16l : (0.0585596347256952 : ℝ) ≤ Real.sin (y / 16) := by
    rw [e16]; exact sin_double_lo hs32l hc32l (by norm_num) (by norm_num) (by norm_num)
  have hs16u : Real.sin (y / 16) ≤ 0.0585596371424715 := by
    rw [e16]; exact sin_double_hi hs32u hc32u h0s32 h0c32 (by norm_num)
  have hc16l : (0.9982839119699289 : ℝ) ≤ Real.cos (y / 16) := by
    rw [e16]; exact cos_double_lo hs32u h0s32 (by norm_num)
  have hc16u : Real.cos (y / 16) ≤ 0.9982839121114546 := by
    rw [e16]; exact cos_double_hi hs32l (by norm_num) (by norm_num)
  have h0s16 : (0 : ℝ) ≤ Real.sin (y / 16) := le_trans (by norm_num) hs16l
  have h0c16 : (0 : ℝ) ≤ Real.cos (y / 16) := le_trans (by norm_num) hc16l
  have e8 : y / 8 = 2 * (y / 16) := by ring
  have hs8l : (0.1169182824749941 : ℝ) ≤ Real.sin (y / 8) := by
    rw [e8]; exact sin_double_lo hs16l hc16l (by norm_num) (by norm_num) (by norm_num)
  have hs8u : Real.sin (y / 8) ≤ 0.1169182873168274 := by
    rw [e8]; exact sin_double_hi hs16u hc16u h0s16 h0c16 (by norm_num)
  have hc8l : (0.9931415377954841 : ℝ) ≤ Real.cos (y / 8) := by
    rw [e8]; exact cos_double_lo hs16u h0s16 (by norm_num)
  have hc8u : Real.cos (y / 8) ≤ 0.9931415383615864 := by
    rw [e8]; exact cos_double_hi hs16l (by norm_num) (by norm_num)
  have h0s8 : (0 : ℝ) ≤ Real.sin (y / 8) := le_trans (by norm_num) hs8l
  have h0c8 : (0 : ℝ) ≤ Real.cos (y / 8) := le_trans (by norm_num) hc8l
  have e4 : y / 4 = 2 * (y / 8) := by ring
  have hs4l : (0.2322328057072448 : ℝ) ≤ Real.sin (y / 4) := by
    rw [e4]; exact sin_double_lo hs8l hc8l (by norm_num) (by norm_num) (by norm_num)
  have hs4u : Real.sin (y / 4) ≤ 0.2322328154568719 := by
    rw [e4]; exact sin_double_hi hs8u hc8u h0s8 h0c8 (by norm_num)
  have hc4l : (0.9726602281817995 : ℝ) ≤ Real.cos (y / 4) := by
    rw [e4]; exact cos_double_lo hs8u h0s8 (by norm_num)
  have hc4u : Real.cos (y / 4) ≤ 0.972660230446195 := by
    rw [e4]; exact cos_double_hi hs8l (by norm_num) (by norm_num)
  have h0s4 : (0 : ℝ) ≤ Real.sin (y / 4) := le_trans (by norm_num) hs4l
  have h0c4 : (0 : ℝ) ≤ Real.cos (y / 4) := le_trans (by norm_num) hc4l
  have e2 : y / 2 = 2 * (y / 4) := by ring
  have hs2l : (0.4517672275810164 : ℝ) ≤ Real.sin (y / 2) := by
    rw [e2]; exact sin_double_lo hs4l hc4l (by norm_num) (by norm_num) (by norm_num)
  have hs2u : Real.sin (y / 2) ≤ 0.4517672475988994 := by
    rw [e2]; exact sin_double_hi hs4u hc4u h0s4 h0c4 (by norm_num)
  have hc2l : (0.8921358388499489 : ℝ) ≤ Real.cos (y / 2) := by
    rw [e2]; exact cos_double_lo hs4u h0s4 (by norm_num)
  have hc2u : Real.cos (y / 2) ≤ 0.8921358479066822 := by
    rw [e2]; exact cos_double_hi hs4l (by norm_num) (by norm_num)
  have h0s2 : (0 : ℝ) ≤ Real.sin (y / 2) := le_trans (by norm_num) hs2l
  have h0c2 : (0 : ℝ) ≤ Real.cos (y / 2) := le_trans (by norm_num) hc2l
  have e1 : y = 2 * (y / 2) := by ring
  have hs1l : (0.8060754690858116 : ℝ) ≤ Real.sin y := by
    rw [e1]; exact sin_double_lo hs2l hc2l (by norm_num) (by norm_num) (by norm_num)
  have hs1u : Real.sin y ≤ 0.8060755129862244 := by
    rw [e1]; exact sin_double_hi hs2u hc2u h0s2 h0c2 (by norm_num)
  have hc1l : (0.5918127079938294 : ℝ) ≤ Real.cos y := by
    rw [e1]; exact cos_double_lo hs2u h0s2 (by norm_num)
  have hc1u : Real.cos y ≤ 0.5918127441675243 := by
    rw [e1]; exact cos_double_hi hs2l (by norm_num) (by norm_num)
  exact ⟨⟨hs1l, hs1u⟩, hc1l, hc1u⟩

/-- Reduction of the trace angle `8100/π` modulo the trigonometric period:
`8100/π = (π + 410·2π) − y` with `y = 821π − 8100/π`, so its cosine is
`−cos y` and its sine is `sin y`. -/
theorem trace_reduction :
    Real.cos (8100 / π) = -Real.cos (821 * π - 8100 / π) ∧
    Real.sin (8100 / π) = Real.sin (821 * π - 8100 / π) := by
  have e : (8100 : ℝ) / π = (π + ((410 : ℤ) : ℝ) * (2 * π)) - (821 * π - 8100 / π) := by
    push_cast; ring
  constructor
  · conv_lhs => rw [e]
    rw [Real.cos_sub, Real.cos_add_int_mul_two_pi, Real.sin_add_int_mul_two_pi,
      Real.cos_pi, Real.sin_pi]
    ring
  · conv_lhs => rw [e]
    rw [Real.sin_sub, Real.cos_add_int_mul_two_pi, Real.sin_add_int_mul_two_pi,
      Real.cos_pi, Real.sin_pi]
    ring

/-- Enclosure of cosine and sine at the demo-trace angle `8100/π`: they match
the recorded matrix entries `−0.59181273` and `0.80607549` to well within
`10⁻⁶`. -/
theorem trace_bounds :
    ((-0.5918127441675243 : ℝ) ≤ Real.cos (8100 / π) ∧
      Real.cos (8100 / π) ≤ -0.5918127079938294) ∧
    ((0.8060754690858116 : ℝ) ≤ Real.sin (8100 / π) ∧
      Real.sin (8100 / π) ≤ 0.8060755129862244) := by
  obtain ⟨⟨hs1, hs2⟩, hc1, hc2⟩ := sin_cos_y_bounds
  obtain ⟨ec, es⟩ := trace_reduction
  refine ⟨⟨?_, ?_⟩, ?_, ?_⟩
  · rw [ec]; linarith
  · rw [ec]; linarith
  · rw [es]; linarith
  · rw [es]; linarith

/-- Cosine of 360 radians is negative (since `360 − 114π ∈ (π/2, 3π/2)`). -/
theorem cos_360_neg : Real.cos 360 < 0 := by
  have h := Real.cos_add_int_mul_two_pi (360 - 114 * π) 57
  have e : (360 - 114 * π) + ((57 : ℤ) : ℝ) * (2 * π) = 360 := by push_cast; ring
  rw [e] at h
  have hgt := Real.pi_gt_d6
  have hlt := Real.pi_lt_d6
  rw [h]
  apply Real.cos_neg_of_pi_div_two_lt_of_lt
  · linarith
  · linarith

/-- Cosine of 45 radians is positive (since `45 − 14π ∈ (−π/2, π/2)`). -/
theorem cos_45_pos : 0 < Real.cos 45 := by
  have h := Real.cos_add_int_mul_two_pi (45 - 14 * π) 7
  have e : (45 - 14 * π) + ((7 : ℤ) : ℝ) * (2 * π) = 45 := by push_cast; ring
  rw [e] at h
  have hgt := Real.pi_gt_d6
  have hlt := Real.pi_lt_d6
  rw [h]
  exact Real.cos_pos_of_mem_Ioo (Set.mem_Ioo.mpr ⟨by linarith, by linarith⟩)

/-- C7: identity at zero — `rotx(0.0)`, `roty(0.0)` and `rotz(0.0)` all return
exactly the 3×3 identity matrix. -/
theorem identity_at_zero :
    rotx (.pfloat 0) = .ok 1 ∧ roty (.pfloat 0) = .ok 1 ∧ rotz (.pfloat 0) = .ok 1 := by
  refine ⟨?_, ?_, ?_⟩ <;>
    simp [rotx, roty, rotz, fundamentalRotation, rotMat_zero]

/-- C8: orthonormality — for every angle and every axis the returned matrix
times its transpose is the identity (exactly, in real arithmetic; a fortiori
within any floating-point tolerance). -/
theorem orthonormality (a : Axis) (θ : ℝ) :
    rotMat a θ * (rotMat a θ).transpose = 1 := by
  have h := sin_sq_add_cos_sq θ
  cases a <;>
    · ext i j
      fin_cases i <;> fin_cases j <;>
        simp [rotMat, Matrix.mul_apply, Fin.sum_univ_three, Matrix.one_apply,
          Matrix.transpose_apply, Matrix.vecHead, Matrix.vecTail] <;>
        nlinarith [h]

/-- C9: proper rotation — the determinant of every returned matrix is exactly
one; no returned matrix is a reflection. -/
theorem proper_rotation (a : Axis) (θ : ℝ) :
    (rotMat a θ).det = 1 := by
  have h := sin_sq_add_cos_sq θ
  cases a <;>
    · rw [Matrix.det_fin_three]
      simp [rotMat, Matrix.vecHead, Matrix.vecTail]
      nlinarith [h]

/-- C5: type enforcement — each of the three public functions rejects the
integer `1` with the single error kind ParameterTypeViolation, and accepts the
float `1.0` without error. -/
theorem type_enforcement :
    rotx (.pint 1) = .error .ParameterTypeViolation ∧
    roty (.pint 1) = .error .ParameterTypeViolation ∧
    rotz (.pint 1) = .error .ParameterTypeViolation ∧
    rotx (.pfloat 1) = .ok (rotMat .X 1) ∧
    roty (.pfloat 1) = .ok (rotMat .Y 1) ∧
    rotz (.pfloat 1) = .ok (rotMat .Z 1) :=
  ⟨rfl, rfl, rfl, rfl, rfl, rfl⟩

/-- C6: fail-fast boundary check — each public entry point forwards its
argument unmodified to the shared guarded helper, and the call errors exactly
when the argument is integral; the error is the helper's own
ParameterTypeViolation, propagated to the caller with no internal handler. -/
theorem fail_fast_boundary (v : PyNum) :
    rotx v = fundamentalRotation .X v ∧
    roty v = fundamentalRotation .Y v ∧
    rotz v = fundamentalRotation .Z v ∧
    ((∃ n, v = .pint n) ↔ rotx v = .error .ParameterTypeViolation) ∧
    ((∃ n, v = .pint n) ↔ roty v = .error .ParameterTypeViolation) ∧
    ((∃ n, v = .pint n) ↔ rotz v = .error .ParameterTypeViolation) := by
  refine ⟨rfl, rfl, rfl, ?_, ?_, ?_⟩ <;>
    · cases v with
      | pint n => exact ⟨fun _ => rfl, fun _ => ⟨n, rfl⟩⟩
      | pfloat x =>
          constructor
          · rintro ⟨n, hn⟩
            exact PyNum.noConfusion hn
          · intro h
            simp [rotx, roty, rotz, fundamentalRotation] at h

/-- C10: totality for float inputs — every genuine float angle yields a 3×3
matrix from each entry point, and integral inputs hit the single
parameter-type failure mode; no other outcome exists. -/
theorem totality_floats (x : ℝ) (n : ℤ) :
    (rotx (.pfloat x) = .ok (rotMat .X x) ∧
      roty (.pfloat x) = .ok (rotMat .Y x) ∧
      rotz (.pfloat x) = .ok (rotMat .Z x)) ∧
    (rotx (.pint n) = .error .ParameterTypeViolation ∧
      roty (.pint n) = .error .ParameterTypeViolation ∧
      rotz (.pint n) = .error .ParameterTypeViolation) :=
  ⟨⟨rfl, rfl, rfl⟩, ⟨rfl, rfl, rfl⟩⟩

/-- C3: radian semantics — for every float angle each public function returns
the matrix assembled from cos/sin of the angle itself, with the stated sign
pattern and no unit conversion; moreover at the demo-trace input
`np.rad2deg(45) = 8100/π ≈ 2578.31` those cos/sin values land on the recorded
entries `−0.59181273…`/`0.80607549…`, i.e. the trace reproduces cos/sin of
2578.31 radians. -/
theorem rot_radian_semantics (θ : ℝ) :
    (rotx (.pfloat θ) = .ok !![1, 0, 0; 0, cos θ, sin θ; 0, -sin θ, cos θ] ∧
      roty (.pfloat θ) = .ok !![cos θ, 0, -sin θ; 0, 1, 0; sin θ, 0, cos θ] ∧
      rotz (.pfloat θ) = .ok !![cos θ, sin θ, 0; -sin θ, cos θ, 0; 0, 0, 1]) ∧
    (Real.cos (rad2deg 45) < -0.5918127 ∧ (-0.5918128 : ℝ) < Real.cos (rad2deg 45) ∧
      (0.8060754 : ℝ) < Real.sin (rad2deg 45) ∧ Real.sin (rad2deg 45) < 0.8060756) := by
  have e : rad2deg 45 = 8100 / π := by rw [rad2deg]; ring
  obtain ⟨⟨hc1, hc2⟩, hs1, hs2⟩ := trace_bounds
  rw [e]
  exact ⟨⟨rfl, rfl, rfl⟩, by linarith, by linarith, by linarith, by linarith⟩

/-- C2, counterexample to the claim as stated: at the literal input `45.0` the
(1,1) entry of the matrix returned by `rotx` is `cos 45` (radians), which is
positive, hence more than `1e-6` away from the golden entry `−0.59181273`. -/
theorem rot45_not_golden :
    ¬ (∀ i j : Fin 3, |rotMat .X 45 i j - goldenX i j| ≤ 1e-6) := by
  intro h
  have h11 := h 1 1
  have hpos := cos_45_pos
  simp [rotMat, goldenX, Matrix.vecHead, Matrix.vecTail] at h11
  rw [abs_le] at h11
  linarith [h11.2]

/-- C2, amended: at the angle the reference trace actually passed, namely
`np.rad2deg(45) = 8100/π`, the three matrices reproduce the recorded golden
matrices entrywise within the spec's regression tolerance `1e-6`. -/
theorem rot_trace_golden (i j : Fin 3) :
    |rotMat .X (rad2deg 45) i j - goldenX i j| ≤ 1e-6 ∧
    |rotMat .Y (rad2deg 45) i j - goldenY i j| ≤ 1e-6 ∧
    |rotMat .Z (rad2deg 45) i j - goldenZ i j| ≤ 1e-6 := by
  have e : rad2deg 45 = 8100 / π := by rw [rad2deg]; ring
  obtain ⟨⟨hc1, hc2⟩, hs1, hs2⟩ := trace_bounds
  rw [e]
  refine ⟨?_, ?_, ?_⟩ <;>
    fin_cases i <;> fin_cases j <;>
      (rw [abs_le]; refine ⟨?_, ?_⟩) <;>
      simp [rotMat, goldenX, goldenY, goldenZ, Matrix.vecHead, Matrix.vecTail] <;>
      linarith

/-- C1: the degree→radian conversion step of the spec's algorithm is absent
from the implementation — at input `360.0` the implementation's (1,1) entry
is `cos 360` (radians), which is negative, while the spec's algorithm (convert
first, then assemble) yields the identity matrix; the two disagree there. -/
theorem rotx360_spec_gap :
    rotMat .X 360 1 1 < 0 ∧ rotationXspec 360 = 1 ∧ rotMat .X 360 ≠ rotationXspec 360 := by
  have hneg := cos_360_neg
  have h1 : rotMat .X 360 1 1 = Real.cos 360 := by
    simp [rotMat, Matrix.vecHead, Matrix.vecTail]
  have hid : rotationXspec 360 = 1 := by
    have e : (360 : ℝ) * π / 180 = 2 * π := by ring
    ext i j
    fin_cases i <;> fin_cases j <;>
      simp [rotationXspec, e, Real.cos_two_pi, Real.sin_two_pi, Matrix.one_apply,
        Matrix.vecHead, Matrix.vecTail]
  refine ⟨by rw [h1]; exact hneg, hid, ?_⟩
  intro hcontra
  have h2 : rotMat .X 360 1 1 = (1 : Matrix (Fin 3) (Fin 3) ℝ) 1 1 := by
    rw [hcontra, hid]
  have h3 : ((1 : Matrix (Fin 3) (Fin 3) ℝ) 1 1 : ℝ) = 1 := Matrix.one_apply_eq 1
  rw [h1, h3] at h2
  linarith

/-- C4: 360 is not a period of the implementation — at `θ = 0.0` the (1,1)
entries of the matrices for `θ + 360` and for `θ` differ by more than 1, far
beyond any floating-point tolerance (the implementation's period is `2π`
radians, not 360). -/
theorem rotx_not_periodic_360 :
    1 < |rotMat .X (0 + 360) 1 1 - rotMat .X 0 1 1| := by
  have hneg := cos_360_neg
  have e0 : (0 : ℝ) + 360 = 360 := by norm_num
  rw [e0]
  have h1 : rotMat .X 360 1 1 = Real.cos 360 := by
    simp [rotMat, Matrix.vecHead, Matrix.vecTail]
  have h2 : rotMat .X 0 1 1 = 1 := by
    simp [rotMat, Matrix.vecHead, Matrix.vecTail]
  rw [h1, h2, abs_of_neg (by linarith)]
  linarith

end Firefly
